import Mathlib

/-!
Shallow embedding of the realtime peer-communication subsystem of the
little-share donation app: the push/notify authorization gate
(supabase/functions/send-push-notification/index.ts), the chat message
RLS policies (migration 20260109070243), the chat client
(src/components/ChatDialog.tsx and the full-screen variant), and the
live-location hook (src/hooks/useLiveLocation.ts).

User ids and endpoints are strings, timestamps are naturals.
-/

/-- Request status, from the requests table (status ∈ pending, accepted,
declined, completed). -/
inductive ReqStatus where
  | pending
  | accepted
  | declined
  | completed
deriving DecidableEq, Repr

/-- A row of the items (listings) table: only the columns the gate reads. -/
structure Item where
  id : String
  donor_id : String
deriving DecidableEq, Repr

/-- A row of the requests table: only the columns the gate and the
message policies read. -/
structure Request where
  id : String
  item_id : String
  receiver_id : String
  status : ReqStatus
deriving DecidableEq, Repr

/-- A row of the push_subscriptions table. -/
structure PushSub where
  user_id : String
  endpoint : String
  p256dh : String
  auth : String
deriving DecidableEq, Repr

/-- A row of the messages table (migration 20260109070243). -/
structure Message where
  id : String
  request_id : String
  sender_id : String
  content : String
  created_at : Nat
  is_read : Bool
deriving DecidableEq, Repr

/-- The slice of the relational store the claims touch. -/
structure DB where
  items : List Item
  requests : List Request
  push_subscriptions : List PushSub
  messages : List Message
deriving Repr

/-- The SQL helper public.item_donor_id: donor of the item with the given
id, if any. -/
def itemDonorId (db : DB) (itemId : String) : Option String :=
  (db.items.find? (fun it => it.id == itemId)).map (fun it => it.donor_id)

/-- One iteration of the authorization loop of send-push-notification
(index.ts lines 225-275): a target passes if it is the caller, or the
target has a request (any status) on one of the caller's items, or the
caller has a request (any status) on one of the target's items. -/
def targetAuthorized (db : DB) (callerId targetId : String) : Bool :=
  targetId == callerId
  || db.requests.any (fun r =>
       db.items.any (fun it => it.id == r.item_id && it.donor_id == callerId)
       && r.receiver_id == targetId)
  || db.requests.any (fun r =>
       db.items.any (fun it => it.id == r.item_id && it.donor_id == targetId)
       && r.receiver_id == callerId)

/-- The authorization loop: the sublist of targets that pass, in request
order. -/
def authorize (db : DB) (callerId : String) (targetIds : List String) : List String :=
  targetIds.filter (fun t => targetAuthorized db callerId t)

/-- The WITH CHECK condition of the RLS policy "Participants can send
messages": the sender inserts under their own id and the message's
request is accepted with the sender as receiver or as donor of the
requested item. -/
def canSendMessage (db : DB) (uid : String) (requestId senderId : String) : Bool :=
  uid == senderId
  && db.requests.any (fun r =>
       r.id == requestId
       && r.status == ReqStatus.accepted
       && (r.receiver_id == uid || itemDonorId db r.item_id == some uid))

/-- Outcome of a message insert under the RLS policy: the row on success,
a Forbidden rejection otherwise. -/
inductive SendResult where
  | ok
  | forbidden
deriving DecidableEq, Repr

/-- A message insert, gated by the send policy. -/
def sendMessage (db : DB) (uid : String) (requestId senderId : String) : SendResult :=
  if canSendMessage db uid requestId senderId then SendResult.ok
  else SendResult.forbidden

/-! Input validation of the push payload (index.ts lines 168-220). -/

/-- The push request body. -/
structure PushPayload where
  title : String
  body : String
  user_ids : List String
deriving Repr

/-- A hexadecimal digit, as matched by the character class 0-9a-f with
the i flag. -/
def isHexDigit (c : Char) : Bool :=
  c.isDigit || ('a' ≤ c && c ≤ 'f') || ('A' ≤ c && c ≤ 'F')

/-- Split a character list at every hyphen, keeping empty groups, as the
anchored regex's group structure does. -/
def splitHyphen : List Char → List (List Char)
  | [] => [[]]
  | c :: rest =>
    match splitHyphen rest with
    | [] => [[]]
    | g :: gs => if c = '-' then [] :: g :: gs else (c :: g) :: gs

/-- The UUID regex of index.ts line 212: five hyphen-separated groups of
hex digits of lengths 8, 4, 4, 4, 12, case-insensitive. -/
def isUuid (s : String) : Bool :=
  match splitHyphen s.toList with
  | [a, b, c, d, e] =>
      a.length == 8 && b.length == 4 && c.length == 4 && d.length == 4
      && e.length == 12 && (a ++ b ++ c ++ d ++ e).all isHexDigit
  | _ => false

/-- The validation chain, in source order; the error string of the first
failing check, none when all pass. An empty title or body is falsy in the
source and rejected as missing. -/
def validatePayload (p : PushPayload) : Option String :=
  if p.title = "" then some "Invalid input: title is required"
  else if p.body = "" then some "Invalid input: body is required"
  else if p.title.length > 100 then some "Invalid input: title exceeds 100 characters"
  else if p.body.length > 500 then some "Invalid input: body exceeds 500 characters"
  else if p.user_ids = [] then some "Invalid input: user_ids must be a non-empty array"
  else if p.user_ids.length > 50 then some "Invalid input: user_ids exceeds maximum of 50"
  else if p.user_ids.any (fun u => !(isUuid u)) then
    some "Invalid input: user_ids must contain valid UUIDs"
  else none

/-! The delivery loop and the response (index.ts lines 287-358). -/

/-- Per-endpoint delivery outcome: none is success, some code a failure
with that status code (web-push rejection). -/
def Deliver := String → Option Nat

/-- The per-subscription send loop (lines 313-343): sent count, failed
endpoints, and the endpoints whose rows were deleted (codes 410 and 404),
accumulated left to right. -/
def sendLoop (deliver : Deliver) (subs : List PushSub) :
    Nat × List String × List String :=
  subs.foldl
    (fun acc sub =>
      match deliver sub.endpoint with
      | none => (acc.1 + 1, acc.2.1, acc.2.2)
      | some code =>
          (acc.1, acc.2.1 ++ [sub.endpoint],
           if code == 410 || code == 404 then acc.2.2 ++ [sub.endpoint]
           else acc.2.2))
    (0, [], [])

/-- The JSON response body and HTTP status the function returns past
authentication. -/
inductive ServeResult where
  | invalidInput (msg : String)
  | forbidden
  | noSubscriptions
  | sent (sentCount failedCount authorizedCount total : Nat)
deriving DecidableEq, Repr

/-- The observable outcome of one call: response, the endpoints a push
was attempted on, and the store afterwards. -/
structure ServeOutcome where
  result : ServeResult
  attempted : List String
  db : DB

/-- The serve handler past JWT authentication (index.ts lines 166-358):
validate, authorize, fail Forbidden on an empty authorized set, look up
subscriptions of authorized users, deliver per subscription deleting rows
on 410/404, and report counts. -/
def servePush (db : DB) (deliver : Deliver) (callerId : String) (p : PushPayload) :
    ServeOutcome :=
  match validatePayload p with
  | some msg => ⟨ServeResult.invalidInput msg, [], db⟩
  | none =>
    let authorizedUserIds := authorize db callerId p.user_ids
    if authorizedUserIds.isEmpty then ⟨ServeResult.forbidden, [], db⟩
    else
      let subs := db.push_subscriptions.filter
        (fun s => authorizedUserIds.contains s.user_id)
      if subs.isEmpty then ⟨ServeResult.noSubscriptions, [], db⟩
      else
        let r := sendLoop deliver subs
        ⟨ServeResult.sent r.1 r.2.1.length authorizedUserIds.length p.user_ids.length,
         subs.map (fun s => s.endpoint),
         { db with push_subscriptions :=
             db.push_subscriptions.filter (fun s => !(r.2.2.contains s.endpoint)) }⟩

/-- The HTTP rendering of each result, as written in index.ts. -/
structure HttpResponse where
  status : Nat
  success : Bool
  sent : Option Nat
  failed : Option Nat
  message : Option String
  errMsg : Option String
deriving DecidableEq, Repr

/-- Response fields for each branch of the handler. -/
def renderResponse : ServeResult → HttpResponse
  | ServeResult.invalidInput msg => ⟨400, false, none, none, none, some msg⟩
  | ServeResult.forbidden =>
      ⟨403, false, none, none, none,
       some "Forbidden: Not authorized to notify these users"⟩
  | ServeResult.noSubscriptions =>
      ⟨200, true, some 0, none, some "No subscriptions found", none⟩
  | ServeResult.sent s f _ _ =>
      ⟨200, true, some s, some f, some "notifications sent successfully", none⟩

/-! The chat message list (ChatDialog.tsx fetchMessages, and the
full-screen variant): select the conversation's rows and order by
created_at ascending. -/

/-- fetchMessages: the messages of one request, ordered by created_at
ascending, as returned by the store's order-by. -/
def listMessages (db : DB) (requestId : String) : List Message :=
  (db.messages.filter (fun m => m.request_id == requestId)).mergeSort
    (fun a b => a.created_at ≤ b.created_at)

/-! The chat client's catch-up seam (ChatDialog.tsx lines 47-77 and the
full-screen variant lines 323-368): an initial fetch, then INSERT events
appended to local state. -/

/-- The INSERT subscription handler: the new row is appended to the
current list unconditionally. -/
def applyInsert (msgs : List Message) (m : Message) : List Message :=
  msgs ++ [m]

/-- The sequence a client observes after fetching once and then receiving
a stream of INSERT events. -/
def observeChat (fetched : List Message) (events : List Message) : List Message :=
  events.foldl applyInsert fetched

/-! The live-location hook (useLiveLocation.ts). -/

/-- A row of the live_locations table, as carried by a change event. -/
structure LocRow where
  user_id : String
  latitude : Int
  longitude : Int
  is_sharing : Bool
  expires_at : Nat
deriving DecidableEq, Repr

/-- The observer's view of the peer's session, as kept in
otherUserLocation. -/
structure LiveLoc where
  userId : String
  latitude : Int
  longitude : Int
  isSharing : Bool
  expiresAt : Nat
deriving DecidableEq, Repr

/-- A change event on live_locations: an insert or update carrying the
new row, observed at time now, or a delete carrying the old row's user. -/
inductive LocEvent where
  | upsert (row : LocRow) (now : Nat)
  | del (oldUserId : String)
deriving Repr

/-- The subscription handler (useLiveLocation.ts lines 61-86): a delete
by the peer clears the view; a peer row with is_sharing false or
expires_at before now clears the view; any other peer row replaces it;
the observer's own rows leave the view unchanged. -/
def handleLocEvent (currentUserId : String) (st : Option LiveLoc) :
    LocEvent → Option LiveLoc
  | LocEvent.del oldUserId =>
      if oldUserId != currentUserId then none else st
  | LocEvent.upsert row now =>
      if row.user_id != currentUserId then
        if !row.is_sharing || row.expires_at < now then none
        else some ⟨row.user_id, row.latitude, row.longitude,
                   row.is_sharing, row.expires_at⟩
      else st

/-- fetchLiveLocations (lines 23-46): the store filter keeps rows with
is_sharing true and expires_at at or after now; the forEach sets the
peer view from each non-own row in order, last write winning. -/
def fetchOtherLocation (rows : List LocRow) (now : Nat) (currentUserId : String) :
    Option LiveLoc :=
  (rows.filter (fun r => r.is_sharing && now ≤ r.expires_at)).foldl
    (fun st r =>
      if r.user_id == currentUserId then st
      else some ⟨r.user_id, r.latitude, r.longitude, r.is_sharing, r.expires_at⟩)
    none

/-! startSharing and stopSharing, modelled on the client state the hook
keeps: the geolocation watch handle, the local flags, and the row's
is_sharing column. -/

/-- The hook's mutable state: watchIdRef, isSharing, currentLocation,
and the is_sharing column of the user's row. -/
structure ShareState where
  watchId : Option Nat
  localSharing : Bool
  localLocation : Option (Int × Int)
  dbSharing : Bool
deriving DecidableEq, Repr

/-- stopSharing (lines 172-193): clear the geolocation watch first, then
write is_sharing false; on a write error return before touching the
local flags. -/
def stopSharing (writeFails : Bool) (s : ShareState) : ShareState :=
  let s1 := { s with watchId := none }
  if writeFails then s1
  else { s1 with dbSharing := false, localSharing := false, localLocation := none }

/-- The bidirectional relationship fact the gate derives: one of the two
users owns an item the other has requested, in any status. -/
def related (db : DB) (a b : String) : Bool :=
  db.requests.any (fun r =>
    db.items.any (fun it => it.id == r.item_id && it.donor_id == a)
    && r.receiver_id == b)
  || db.requests.any (fun r =>
    db.items.any (fun it => it.id == r.item_id && it.donor_id == b)
    && r.receiver_id == a)

/-- The endpoints whose delivery fails, in subscription order. -/
def failEndpoints (deliver : Deliver) (subs : List PushSub) : List String :=
  (subs.filter (fun s => (deliver s.endpoint).isSome)).map (fun s => s.endpoint)

/-- The endpoints whose delivery fails with 410 or 404, in subscription
order: exactly the rows the loop deletes. -/
def goneEndpoints (deliver : Deliver) (subs : List PushSub) : List String :=
  (subs.filter (fun s =>
    match deliver s.endpoint with
    | some code => code == 410 || code == 404
    | none => false)).map (fun s => s.endpoint)

/-! Theorems. -/

theorem targetAuthorized_eq (db : DB) (c t : String) :
    targetAuthorized db c t = ((t == c) || related db c t) := by
  simp [targetAuthorized, related, Bool.or_assoc]

/-- Claim C3: whatever the relationship data, a caller whose own id is
among the targets is included in the authorized output, and authorize
applied to the caller alone returns exactly the caller. -/
theorem authorize_self (db : DB) (caller : String) :
    authorize db caller [caller] = [caller]
    ∧ ∀ targets : List String, caller ∈ targets →
        caller ∈ authorize db caller targets := by
  constructor
  · simp [authorize, targetAuthorized]
  · intro targets ht
    refine List.mem_filter.mpr ⟨ht, ?_⟩
    simp [targetAuthorized]

/-- Witness for authorize_self, at an empty store and a two-target list. -/
theorem authorize_self_witness :
    "u1" ∈ authorize ⟨[], [], [], []⟩ "u1" ["u0", "u1"] :=
  (authorize_self ⟨[], [], [], []⟩ "u1").2 ["u0", "u1"] (by decide)

/-- Claim C2: a caller with no relationship to any requested target, and
not among the targets, gets an empty authorized subset and the call fails
with HTTP 403 Forbidden rather than succeeding with zero recipients. -/
theorem unrelated_targets_forbidden (db : DB) (deliver : Deliver)
    (caller : String) (p : PushPayload)
    (hv : validatePayload p = none)
    (h : ∀ t ∈ p.user_ids, t ≠ caller ∧ related db caller t = false) :
    authorize db caller p.user_ids = []
    ∧ (servePush db deliver caller p).result = ServeResult.forbidden
    ∧ (renderResponse (servePush db deliver caller p).result).status = 403
    ∧ (renderResponse (servePush db deliver caller p).result).success = false := by
  have hempty : authorize db caller p.user_ids = [] := by
    refine List.filter_eq_nil_iff.mpr ?_
    intro t ht
    rcases h t ht with ⟨hne, hrel⟩
    rw [targetAuthorized_eq, hrel]
    simp [hne]
  have hserve : servePush db deliver caller p
      = ⟨ServeResult.forbidden, [], db⟩ := by
    unfold servePush
    rw [hv]
    simp [hempty]
  exact ⟨hempty, by rw [hserve], by rw [hserve]; rfl, by rw [hserve]; rfl⟩

/-- Witness for unrelated_targets_forbidden: an empty store, so the lone
well-formed target is unrelated to the caller. -/
theorem unrelated_targets_forbidden_witness :
    authorize ⟨[], [], [], []⟩ "caller" ["00000000-0000-0000-0000-000000000000"] = []
    ∧ (servePush ⟨[], [], [], []⟩ (fun _ => none) "caller"
        ⟨"t", "b", ["00000000-0000-0000-0000-000000000000"]⟩).result
      = ServeResult.forbidden
    ∧ (renderResponse (servePush ⟨[], [], [], []⟩ (fun _ => none) "caller"
        ⟨"t", "b", ["00000000-0000-0000-0000-000000000000"]⟩).result).status = 403
    ∧ (renderResponse (servePush ⟨[], [], [], []⟩ (fun _ => none) "caller"
        ⟨"t", "b", ["00000000-0000-0000-0000-000000000000"]⟩).result).success = false := by
  have hp : validatePayload ⟨"t", "b", ["00000000-0000-0000-0000-000000000000"]⟩
      = none := by decide
  exact unrelated_targets_forbidden ⟨[], [], [], []⟩ (fun _ => none) "caller"
    ⟨"t", "b", ["00000000-0000-0000-0000-000000000000"]⟩ hp (by decide)

/-- The send policy's WITH CHECK, as a proposition. -/
theorem canSendMessage_iff (db : DB) (uid requestId senderId : String) :
    canSendMessage db uid requestId senderId = true ↔
      (uid = senderId ∧ ∃ req ∈ db.requests, req.id = requestId
        ∧ req.status = ReqStatus.accepted
        ∧ (req.receiver_id = uid ∨ itemDonorId db req.item_id = some uid)) := by
  unfold canSendMessage
  simp only [Bool.and_eq_true, List.any_eq_true, beq_iff_eq, Bool.or_eq_true]
  constructor
  · rintro ⟨h1, req, hreq, hrest⟩
    exact ⟨h1, req, hreq, by tauto, by tauto, by tauto⟩
  · rintro ⟨h1, req, hreq, h2, h3, h4⟩
    exact ⟨h1, req, hreq, by tauto⟩

/-- Claim C1: a request relationship in any status authorizes the notify
gate (a pending request from B on A's listing lets A notify B), while a
message insert passes the send policy exactly when the sender inserts
under their own id and the conversation's request is accepted with the
sender as one of the two participants; otherwise the insert is Forbidden. -/
theorem notify_gate_any_status_send_gate_accepted (db : DB) (A B : String)
    (it : Item) (r : Request)
    (hit : it ∈ db.items) (hdon : it.donor_id = A)
    (hr : r ∈ db.requests) (hri : r.item_id = it.id) (hrr : r.receiver_id = B) :
    targetAuthorized db A B = true
    ∧ (∀ uid requestId senderId,
        sendMessage db uid requestId senderId = SendResult.ok ↔
          (uid = senderId ∧ ∃ req ∈ db.requests, req.id = requestId
            ∧ req.status = ReqStatus.accepted
            ∧ (req.receiver_id = uid ∨ itemDonorId db req.item_id = some uid)))
    ∧ (∀ uid requestId senderId,
        ¬(uid = senderId ∧ ∃ req ∈ db.requests, req.id = requestId
            ∧ req.status = ReqStatus.accepted
            ∧ (req.receiver_id = uid ∨ itemDonorId db req.item_id = some uid)) →
          sendMessage db uid requestId senderId = SendResult.forbidden) := by
  have hsend : ∀ uid requestId senderId,
      sendMessage db uid requestId senderId = SendResult.ok ↔
        (uid = senderId ∧ ∃ req ∈ db.requests, req.id = requestId
          ∧ req.status = ReqStatus.accepted
          ∧ (req.receiver_id = uid ∨ itemDonorId db req.item_id = some uid)) := by
    intro uid requestId senderId
    rw [← canSendMessage_iff]
    unfold sendMessage
    by_cases hc : canSendMessage db uid requestId senderId = true
    · simp [hc]
    · simp [hc]
  refine ⟨?_, hsend, ?_⟩
  · unfold targetAuthorized
    simp only [Bool.or_eq_true, List.any_eq_true, Bool.and_eq_true, beq_iff_eq]
    refine Or.inl (Or.inr ⟨r, hr, ⟨it, hit, hri.symm, hdon⟩, hrr⟩)
  · intro uid requestId senderId hno
    cases hres : sendMessage db uid requestId senderId with
    | ok => exact absurd ((hsend uid requestId senderId).mp hres) hno
    | forbidden => rfl

/-- Witness for notify_gate_any_status_send_gate_accepted: B holds a
pending request on A's item, so A may notify B, while an outsider C's
insert on that conversation is Forbidden. -/
theorem notify_gate_send_gate_witness :
    targetAuthorized ⟨[⟨"i1", "A"⟩], [⟨"r1", "i1", "B", ReqStatus.pending⟩], [], []⟩
      "A" "B" = true
    ∧ sendMessage ⟨[⟨"i1", "A"⟩], [⟨"r1", "i1", "B", ReqStatus.pending⟩], [], []⟩
      "C" "r1" "C" = SendResult.forbidden := by
  have h := notify_gate_any_status_send_gate_accepted
    ⟨[⟨"i1", "A"⟩], [⟨"r1", "i1", "B", ReqStatus.pending⟩], [], []⟩
    "A" "B" ⟨"i1", "A"⟩ ⟨"r1", "i1", "B", ReqStatus.pending⟩
    (by decide) rfl (by decide) rfl rfl
  exact ⟨h.1, h.2.2 "C" "r1" "C" (by decide)⟩

/-- The validation chain passes exactly when every check passes. -/
theorem validatePayload_none_iff (p : PushPayload) :
    validatePayload p = none ↔
      (p.title ≠ "" ∧ p.body ≠ "" ∧ p.title.length ≤ 100 ∧ p.body.length ≤ 500
        ∧ p.user_ids ≠ [] ∧ p.user_ids.length ≤ 50
        ∧ ∀ u ∈ p.user_ids, isUuid u = true) := by
  unfold validatePayload
  split_ifs with h1 h2 h3 h4 h5 h6 h7 <;>
    simp_all [List.any_eq_true]

/-- Claim C5: any payload with an oversized title or body, or an empty,
oversized, or malformed target list, is rejected with HTTP 400 before any
push delivery is attempted and without touching the store. -/
theorem push_invalid_payload_rejected (db : DB) (deliver : Deliver)
    (caller : String) (p : PushPayload)
    (h : p.title.length > 100 ∨ p.body.length > 500 ∨ p.user_ids = []
      ∨ p.user_ids.length > 50 ∨ ∃ u ∈ p.user_ids, isUuid u = false) :
    (∃ msg, (servePush db deliver caller p).result = ServeResult.invalidInput msg)
    ∧ (renderResponse (servePush db deliver caller p).result).status = 400
    ∧ (renderResponse (servePush db deliver caller p).result).success = false
    ∧ (servePush db deliver caller p).attempted = []
    ∧ (servePush db deliver caller p).db = db := by
  have hv : ∃ msg, validatePayload p = some msg := by
    cases hcase : validatePayload p with
    | some m => exact ⟨m, rfl⟩
    | none =>
      exfalso
      obtain ⟨-, -, ht, hb, hne, hlen, huuid⟩ := (validatePayload_none_iff p).mp hcase
      rcases h with h | h | h | h | ⟨u, hu, hbad⟩
      · omega
      · omega
      · exact hne h
      · omega
      · rw [huuid u hu] at hbad
        exact Bool.noConfusion hbad
  obtain ⟨msg, hmsg⟩ := hv
  have hout : servePush db deliver caller p
      = ⟨ServeResult.invalidInput msg, [], db⟩ := by
    unfold servePush
    rw [hmsg]
  exact ⟨⟨msg, by rw [hout]⟩, by rw [hout]; rfl, by rw [hout]; rfl,
    by rw [hout], by rw [hout]⟩

/-- Witness for push_invalid_payload_rejected: a 101-character title. -/
theorem push_invalid_payload_witness :
    (∃ msg, (servePush ⟨[], [], [], []⟩ (fun _ => none) "caller"
        ⟨String.mk (List.replicate 101 'a'), "b",
         ["00000000-0000-0000-0000-000000000000"]⟩).result
      = ServeResult.invalidInput msg)
    ∧ (renderResponse (servePush ⟨[], [], [], []⟩ (fun _ => none) "caller"
        ⟨String.mk (List.replicate 101 'a'), "b",
         ["00000000-0000-0000-0000-000000000000"]⟩).result).status = 400
    ∧ (renderResponse (servePush ⟨[], [], [], []⟩ (fun _ => none) "caller"
        ⟨String.mk (List.replicate 101 'a'), "b",
         ["00000000-0000-0000-0000-000000000000"]⟩).result).success = false
    ∧ (servePush ⟨[], [], [], []⟩ (fun _ => none) "caller"
        ⟨String.mk (List.replicate 101 'a'), "b",
         ["00000000-0000-0000-0000-000000000000"]⟩).attempted = []
    ∧ (servePush ⟨[], [], [], []⟩ (fun _ => none) "caller"
        ⟨String.mk (List.replicate 101 'a'), "b",
         ["00000000-0000-0000-0000-000000000000"]⟩).db = ⟨[], [], [], []⟩ :=
  push_invalid_payload_rejected ⟨[], [], [], []⟩ (fun _ => none) "caller"
    ⟨String.mk (List.replicate 101 'a'), "b",
     ["00000000-0000-0000-0000-000000000000"]⟩
    (Or.inl (by decide))

/-- Claim C10: a valid, authorized call whose authorized recipients have
no stored push subscription returns HTTP 200 with success true, sent 0
and the message "No subscriptions found", not an error. -/
theorem push_no_subscriptions_ok (db : DB) (deliver : Deliver)
    (caller : String) (p : PushPayload)
    (hv : validatePayload p = none)
    (ha : authorize db caller p.user_ids ≠ [])
    (hs : db.push_subscriptions.filter
        (fun s => (authorize db caller p.user_ids).contains s.user_id) = []) :
    (servePush db deliver caller p).result = ServeResult.noSubscriptions
    ∧ renderResponse (servePush db deliver caller p).result
      = ⟨200, true, some 0, none, some "No subscriptions found", none⟩ := by
  have hout : servePush db deliver caller p
      = ⟨ServeResult.noSubscriptions, [], db⟩ := by
    unfold servePush
    rw [hv]
    simp only
    rw [if_neg (by simpa [List.isEmpty_iff] using ha)]
    rw [if_pos (by simpa [List.isEmpty_iff] using hs)]
  exact ⟨by rw [hout], by rw [hout]; rfl⟩

/-- Witness for push_no_subscriptions_ok: a self-notification with an
empty push_subscriptions table. -/
theorem push_no_subscriptions_witness :
    (servePush ⟨[], [], [], []⟩ (fun _ => none)
        "00000000-0000-0000-0000-000000000000"
        ⟨"t", "b", ["00000000-0000-0000-0000-000000000000"]⟩).result
      = ServeResult.noSubscriptions
    ∧ renderResponse (servePush ⟨[], [], [], []⟩ (fun _ => none)
        "00000000-0000-0000-0000-000000000000"
        ⟨"t", "b", ["00000000-0000-0000-0000-000000000000"]⟩).result
      = ⟨200, true, some 0, none, some "No subscriptions found", none⟩ :=
  push_no_subscriptions_ok ⟨[], [], [], []⟩ (fun _ => none)
    "00000000-0000-0000-0000-000000000000"
    ⟨"t", "b", ["00000000-0000-0000-0000-000000000000"]⟩
    (by decide) (by decide) rfl

/-- The send loop, characterized: generalized over the accumulator. -/
theorem sendLoop_foldl (deliver : Deliver) (subs : List PushSub)
    (n : Nat) (fs ds : List String) :
    subs.foldl
      (fun acc sub =>
        match deliver sub.endpoint with
        | none => (acc.1 + 1, acc.2.1, acc.2.2)
        | some code =>
            (acc.1, acc.2.1 ++ [sub.endpoint],
             if code == 410 || code == 404 then acc.2.2 ++ [sub.endpoint]
             else acc.2.2))
      (n, fs, ds)
    = (n + subs.countP (fun s => (deliver s.endpoint).isNone),
       fs ++ failEndpoints deliver subs, ds ++ goneEndpoints deliver subs) := by
  induction subs generalizing n fs ds with
  | nil => simp [failEndpoints, goneEndpoints]
  | cons s rest ih =>
    simp only [List.foldl_cons]
    cases hd : deliver s.endpoint with
    | none =>
      rw [ih]
      simp [failEndpoints, goneEndpoints, List.countP_cons, List.filter_cons, hd]
      omega
    | some code =>
      rw [ih]
      by_cases hc : (code == 410 || code == 404) = true
      · simp [failEndpoints, goneEndpoints, List.countP_cons, List.filter_cons,
          hd, hc, List.append_assoc]
      · simp [failEndpoints, goneEndpoints, List.countP_cons, List.filter_cons,
          hd, hc, List.append_assoc]

/-- sendLoop in closed form. -/
theorem sendLoop_eq (deliver : Deliver) (subs : List PushSub) :
    sendLoop deliver subs
      = (subs.countP (fun s => (deliver s.endpoint).isNone),
         failEndpoints deliver subs, goneEndpoints deliver subs) := by
  unfold sendLoop
  rw [sendLoop_foldl]
  simp

/-- Claim C4: when some endpoints fail (in particular with 410 or 404),
the loop still attempts every subscription, the gone rows are deleted,
and the call reports success true with exact sent and failed counts. -/
theorem push_gone_cleanup_continues (db : DB) (deliver : Deliver)
    (caller : String) (p : PushPayload)
    (hv : validatePayload p = none)
    (ha : authorize db caller p.user_ids ≠ [])
    (hs : db.push_subscriptions.filter
        (fun s => (authorize db caller p.user_ids).contains s.user_id) ≠ []) :
    (servePush db deliver caller p).attempted
      = (db.push_subscriptions.filter
          (fun s => (authorize db caller p.user_ids).contains s.user_id)).map
          (fun s => s.endpoint)
    ∧ (servePush db deliver caller p).result
      = ServeResult.sent
          ((db.push_subscriptions.filter
            (fun s => (authorize db caller p.user_ids).contains s.user_id)).countP
            (fun s => (deliver s.endpoint).isNone))
          ((db.push_subscriptions.filter
            (fun s => (authorize db caller p.user_ids).contains s.user_id)).countP
            (fun s => (deliver s.endpoint).isSome))
          (authorize db caller p.user_ids).length p.user_ids.length
    ∧ (renderResponse (servePush db deliver caller p).result).success = true
    ∧ (renderResponse (servePush db deliver caller p).result).status = 200
    ∧ (servePush db deliver caller p).db.push_subscriptions
      = db.push_subscriptions.filter (fun s =>
          !((goneEndpoints deliver
              (db.push_subscriptions.filter
                (fun s => (authorize db caller p.user_ids).contains s.user_id))).contains
            s.endpoint))
    ∧ ∀ s ∈ db.push_subscriptions,
        (goneEndpoints deliver
          (db.push_subscriptions.filter
            (fun s => (authorize db caller p.user_ids).contains s.user_id))).contains
          s.endpoint = true →
        s ∉ (servePush db deliver caller p).db.push_subscriptions := by
  have hlen : (failEndpoints deliver
      (db.push_subscriptions.filter
        (fun s => (authorize db caller p.user_ids).contains s.user_id))).length
      = (db.push_subscriptions.filter
          (fun s => (authorize db caller p.user_ids).contains s.user_id)).countP
          (fun s => (deliver s.endpoint).isSome) := by
    simp [failEndpoints, List.countP_eq_length_filter]
  have hout : servePush db deliver caller p
      = ⟨ServeResult.sent
          ((db.push_subscriptions.filter
            (fun s => (authorize db caller p.user_ids).contains s.user_id)).countP
            (fun s => (deliver s.endpoint).isNone))
          ((db.push_subscriptions.filter
            (fun s => (authorize db caller p.user_ids).contains s.user_id)).countP
            (fun s => (deliver s.endpoint).isSome))
          (authorize db caller p.user_ids).length p.user_ids.length,
         (db.push_subscriptions.filter
           (fun s => (authorize db caller p.user_ids).contains s.user_id)).map
           (fun s => s.endpoint),
         { db with push_subscriptions :=
             db.push_subscriptions.filter (fun s =>
               !((goneEndpoints deliver
                   (db.push_subscriptions.filter
                     (fun s => (authorize db caller p.user_ids).contains
                       s.user_id))).contains s.endpoint)) }⟩ := by
    unfold servePush
    rw [hv]
    simp only
    rw [if_neg (by simpa [List.isEmpty_iff] using ha)]
    rw [if_neg (by simpa [List.isEmpty_iff] using hs)]
    rw [sendLoop_eq, hlen]
  refine ⟨by rw [hout], by rw [hout], by rw [hout]; rfl, by rw [hout]; rfl,
    by rw [hout], ?_⟩
  intro s hmem hgone
  rw [hout]
  intro hin
  have hkeep := (List.mem_filter.mp hin).2
  rw [hgone] at hkeep
  simp at hkeep

/-- Witness for push_gone_cleanup_continues: two subscriptions of the
caller, delivery to ep1 fails with 410 and to ep2 succeeds; ep1's row is
deleted, ep2 still attempted, response success with sent 1 failed 1. -/
theorem push_gone_cleanup_witness :
    (servePush
        ⟨[], [], [⟨"00000000-0000-0000-0000-000000000000", "ep1", "k", "a"⟩,
                  ⟨"00000000-0000-0000-0000-000000000000", "ep2", "k", "a"⟩], []⟩
        (fun e => if e == "ep1" then some 410 else none)
        "00000000-0000-0000-0000-000000000000"
        ⟨"t", "b", ["00000000-0000-0000-0000-000000000000"]⟩).result
      = ServeResult.sent 1 1 1 1
    ∧ (servePush
        ⟨[], [], [⟨"00000000-0000-0000-0000-000000000000", "ep1", "k", "a"⟩,
                  ⟨"00000000-0000-0000-0000-000000000000", "ep2", "k", "a"⟩], []⟩
        (fun e => if e == "ep1" then some 410 else none)
        "00000000-0000-0000-0000-000000000000"
        ⟨"t", "b", ["00000000-0000-0000-0000-000000000000"]⟩).attempted
      = ["ep1", "ep2"]
    ∧ (renderResponse (servePush
        ⟨[], [], [⟨"00000000-0000-0000-0000-000000000000", "ep1", "k", "a"⟩,
                  ⟨"00000000-0000-0000-0000-000000000000", "ep2", "k", "a"⟩], []⟩
        (fun e => if e == "ep1" then some 410 else none)
        "00000000-0000-0000-0000-000000000000"
        ⟨"t", "b", ["00000000-0000-0000-0000-000000000000"]⟩).result).success = true
    ∧ (servePush
        ⟨[], [], [⟨"00000000-0000-0000-0000-000000000000", "ep1", "k", "a"⟩,
                  ⟨"00000000-0000-0000-0000-000000000000", "ep2", "k", "a"⟩], []⟩
        (fun e => if e == "ep1" then some 410 else none)
        "00000000-0000-0000-0000-000000000000"
        ⟨"t", "b", ["00000000-0000-0000-0000-000000000000"]⟩).db.push_subscriptions
      = [⟨"00000000-0000-0000-0000-000000000000", "ep2", "k", "a"⟩] := by
  have h := push_gone_cleanup_continues
    ⟨[], [], [⟨"00000000-0000-0000-0000-000000000000", "ep1", "k", "a"⟩,
              ⟨"00000000-0000-0000-0000-000000000000", "ep2", "k", "a"⟩], []⟩
    (fun e => if e == "ep1" then some 410 else none)
    "00000000-0000-0000-0000-000000000000"
    ⟨"t", "b", ["00000000-0000-0000-0000-000000000000"]⟩
    (by decide) (by decide) (by decide)
  refine ⟨?_, ?_, h.2.2.1, ?_⟩
  · rw [h.2.1]
    decide
  · rw [h.1]
    decide
  · rw [h.2.2.2.2.1]
    decide

/-- Claim C6: the fetched conversation sequence is in non-decreasing
created_at order, contains no duplicate message ids when the table has
none, and re-fetching from the same store yields the same sequence (the
fetch is a pure function of the store, so repeated calls agree). -/
theorem listMessages_sorted_idempotent (db : DB) (rid : String)
    (h : (db.messages.map (fun m => m.id)).Nodup) :
    (listMessages db rid).Pairwise (fun a b => a.created_at ≤ b.created_at)
    ∧ ((listMessages db rid).map (fun m => m.id)).Nodup
    ∧ listMessages db rid = listMessages db rid := by
  refine ⟨?_, ?_, rfl⟩
  · have hs := @List.sorted_mergeSort Message
      (fun a b : Message => decide (a.created_at ≤ b.created_at))
      (fun a b c hab hbc => by
        simp only [decide_eq_true_eq] at *
        omega)
      (fun a b => by
        simp only [Bool.or_eq_true, decide_eq_true_eq]
        exact Nat.le_total _ _)
      (db.messages.filter (fun m => m.request_id == rid))
    refine hs.imp ?_
    intro a b hab
    simpa using hab
  · have hperm : List.Perm (listMessages db rid)
        (db.messages.filter (fun m => m.request_id == rid)) :=
      List.mergeSort_perm _ _
    have hsub : List.Sublist
        ((db.messages.filter (fun m => m.request_id == rid)).map (fun m => m.id))
        (db.messages.map (fun m => m.id)) :=
      (List.filter_sublist _).map _
    exact ((hperm.map _).nodup_iff).mpr (h.sublist hsub)

/-- Witness for listMessages_sorted_idempotent, on a store holding two
out-of-order messages of the conversation and one of another. -/
theorem listMessages_sorted_witness :
    (listMessages ⟨[], [], [],
        [⟨"m2", "r1", "u", "b", 7, false⟩, ⟨"m1", "r1", "u", "a", 3, false⟩,
         ⟨"m3", "r2", "u", "c", 1, false⟩]⟩ "r1").Pairwise
      (fun a b => a.created_at ≤ b.created_at)
    ∧ ((listMessages ⟨[], [], [],
        [⟨"m2", "r1", "u", "b", 7, false⟩, ⟨"m1", "r1", "u", "a", 3, false⟩,
         ⟨"m3", "r2", "u", "c", 1, false⟩]⟩ "r1").map (fun m => m.id)).Nodup
    ∧ listMessages ⟨[], [], [],
        [⟨"m2", "r1", "u", "b", 7, false⟩, ⟨"m1", "r1", "u", "a", 3, false⟩,
         ⟨"m3", "r2", "u", "c", 1, false⟩]⟩ "r1"
      = listMessages ⟨[], [], [],
        [⟨"m2", "r1", "u", "b", 7, false⟩, ⟨"m1", "r1", "u", "a", 3, false⟩,
         ⟨"m3", "r2", "u", "c", 1, false⟩]⟩ "r1" :=
  listMessages_sorted_idempotent ⟨[], [], [],
    [⟨"m2", "r1", "u", "b", 7, false⟩, ⟨"m1", "r1", "u", "a", 3, false⟩,
     ⟨"m3", "r2", "u", "c", 1, false⟩]⟩ "r1" (by decide)

/-- Invariant of the fetch fold: any view it produces comes from a row of
the accumulating list or from the initial view. -/
theorem foldl_loc_inv (cur : String) (now : Nat) :
    ∀ (rs : List LocRow) (init : Option LiveLoc),
      (∀ r ∈ rs, r.is_sharing = true ∧ now ≤ r.expires_at) →
      (∀ l, init = some l → l.isSharing = true ∧ now ≤ l.expiresAt) →
      ∀ l, rs.foldl
          (fun st r =>
            if r.user_id == cur then st
            else some ⟨r.user_id, r.latitude, r.longitude, r.is_sharing,
                       r.expires_at⟩)
          init = some l →
        l.isSharing = true ∧ now ≤ l.expiresAt := by
  intro rs
  induction rs with
  | nil =>
    intro init _ hinit l hl
    exact hinit l hl
  | cons r rest ih =>
    intro init hrs hinit l hl
    simp only [List.foldl_cons] at hl
    refine ih _ (fun x hx => hrs x (List.mem_cons_of_mem r hx)) ?_ l hl
    intro l' hl'
    by_cases hc : (r.user_id == cur) = true
    · rw [if_pos hc] at hl'
      exact hinit l' hl'
    · rw [if_neg hc] at hl'
      cases hl'
      exact ⟨(hrs r (List.mem_cons_self r rest)).1,
             (hrs r (List.mem_cons_self r rest)).2⟩

/-- Any peer view produced by the initial fetch is sharing and unexpired
at the fetch time. -/
theorem fetchOther_live (rows : List LocRow) (now : Nat) (cur : String) :
    ∀ l, fetchOtherLocation rows now cur = some l →
      l.isSharing = true ∧ now ≤ l.expiresAt := by
  intro l hl
  unfold fetchOtherLocation at hl
  refine foldl_loc_inv cur now _ none ?_ (fun _ h => by cases h) l hl
  intro r hr
  have := (List.mem_filter.mp hr).2
  simp only [Bool.and_eq_true, decide_eq_true_eq] at this
  exact this

/-- Counterexample to claim C7 as stated: a peer row whose expires_at
equals the observation time (so not strictly in the future) is still
rendered as live by the subscription handler. -/
theorem live_boundary_rendered_cex :
    handleLocEvent "me" none
        (LocEvent.upsert ⟨"peer", 1, 2, true, 1000⟩ 1000)
      = some ⟨"peer", 1, 2, true, 1000⟩
    ∧ ¬(1000 < 1000) := by
  exact ⟨by decide, by omega⟩

/-- Claim C7 (amended): an observer renders a peer session as live only
if is_sharing is true and expires_at is not earlier than the observation
time; a row with expires_at in the past, or with is_sharing false, or a
peer delete, leaves or clears the view, at fetch and at event handling
alike. -/
theorem live_observer_gate (cur : String) (st : Option LiveLoc)
    (row : LocRow) (now : Nat) (u : String) (rows : List LocRow) :
    (row.user_id ≠ cur → row.expires_at < now →
      handleLocEvent cur st (LocEvent.upsert row now) = none)
    ∧ (row.user_id ≠ cur → row.is_sharing = false →
      handleLocEvent cur st (LocEvent.upsert row now) = none)
    ∧ (u ≠ cur → handleLocEvent cur st (LocEvent.del u) = none)
    ∧ (∀ l, handleLocEvent cur st (LocEvent.upsert row now) = some l →
        st = some l ∨ (row.is_sharing = true ∧ now ≤ row.expires_at))
    ∧ (∀ l, fetchOtherLocation rows now cur = some l →
        l.isSharing = true ∧ now ≤ l.expiresAt) := by
  refine ⟨?_, ?_, ?_, ?_, fetchOther_live rows now cur⟩
  · intro hne hlt
    simp only [handleLocEvent]
    rw [if_pos (by simpa using hne)]
    rw [if_pos (by simp [hlt])]
  · intro hne hns
    simp only [handleLocEvent]
    rw [if_pos (by simpa using hne)]
    rw [if_pos (by simp [hns])]
  · intro hne
    simp only [handleLocEvent]
    rw [if_pos (by simpa using hne)]
  · intro l hl
    simp only [handleLocEvent] at hl
    by_cases hown : (row.user_id != cur) = true
    · rw [if_pos hown] at hl
      by_cases hdead : (!row.is_sharing || decide (row.expires_at < now)) = true
      · rw [if_pos hdead] at hl
        cases hl
      · rw [if_neg hdead] at hl
        simp only [Bool.or_eq_true, Bool.not_eq_true', decide_eq_true_eq,
          not_or, not_lt] at hdead
        exact Or.inr ⟨by simpa using hdead.1, hdead.2⟩
    · rw [if_neg hown] at hl
      exact Or.inl hl

/-- Witness for live_observer_gate: an expired row is cleared and a peer
delete clears the view. -/
theorem live_observer_gate_witness :
    handleLocEvent "me" (some ⟨"peer", 1, 2, true, 50⟩)
        (LocEvent.upsert ⟨"peer", 1, 2, true, 10⟩ 20) = none
    ∧ handleLocEvent "me" (some ⟨"peer", 1, 2, true, 50⟩)
        (LocEvent.del "peer") = none :=
  ⟨(live_observer_gate "me" (some ⟨"peer", 1, 2, true, 50⟩)
      ⟨"peer", 1, 2, true, 10⟩ 20 "peer" []).1 (by decide) (by decide),
   (live_observer_gate "me" (some ⟨"peer", 1, 2, true, 50⟩)
      ⟨"peer", 1, 2, true, 10⟩ 20 "peer" []).2.2.1 (by decide)⟩

/-- Claim C8: stopSharing always clears the geolocation watch, even when
the is_sharing write fails, and a second consecutive call is a no-op: it
leaves the state unchanged (the model is total, so no call errors). -/
theorem stopSharing_idempotent_releases_watch (s : ShareState) (b : Bool) :
    (stopSharing b s).watchId = none
    ∧ (∀ b2 : Bool, stopSharing b2 (stopSharing b2 s) = stopSharing b2 s)
    ∧ stopSharing false (stopSharing true s) = stopSharing false s := by
  refine ⟨?_, ?_, ?_⟩
  · cases b <;> rfl
  · intro b2
    cases b2 <;> rfl
  · rfl

/-- The insert handler only ever appends: the observed sequence is the
fetched list followed by the events in arrival order. -/
theorem observeChat_eq_append (events fetched : List Message) :
    observeChat fetched events = fetched ++ events := by
  induction events generalizing fetched with
  | nil => simp [observeChat]
  | cons e rest ih =>
    show List.foldl applyInsert (applyInsert fetched e) rest
      = fetched ++ e :: rest
    have := ih (fetched ++ [e])
    unfold observeChat at this
    rw [applyInsert, this]
    simp

/-- Counterexample to claim C9 as stated: an INSERT event carrying a
message already in the fetched list is appended again, so the observed
sequence holds that id twice. -/
theorem chat_seam_duplicate_cex :
    ((observeChat [⟨"m1", "r1", "u1", "hi", 5, false⟩]
        [⟨"m1", "r1", "u1", "hi", 5, false⟩]).map (fun m => m.id))
      = ["m1", "m1"]
    ∧ ¬((observeChat [⟨"m1", "r1", "u1", "hi", 5, false⟩]
        [⟨"m1", "r1", "u1", "hi", 5, false⟩]).map (fun m => m.id)).Nodup := by
  decide

/-- Claim C9 (amended): the handler appends each INSERT event with no
de-duplication against the fetched list, so the observed sequence is
exactly fetched ++ events; each message id occurs at most once only under
the extra assumptions that the fetched list and the event stream are
duplicate-free and share no id. -/
theorem chat_seam_append_nodup (fetched events : List Message)
    (hf : (fetched.map (fun m => m.id)).Nodup)
    (he : (events.map (fun m => m.id)).Nodup)
    (hd : ∀ i ∈ fetched.map (fun m => m.id), i ∉ events.map (fun m => m.id)) :
    observeChat fetched events = fetched ++ events
    ∧ ((observeChat fetched events).map (fun m => m.id)).Nodup := by
  refine ⟨observeChat_eq_append events fetched, ?_⟩
  rw [observeChat_eq_append events fetched, List.map_append]
  exact List.Nodup.append hf he (List.disjoint_left.mpr (fun a ha => hd a ha))

/-- Witness for chat_seam_append_nodup: one fetched message, one fresh
event. -/
theorem chat_seam_append_witness :
    observeChat [⟨"m1", "r1", "u1", "hi", 5, false⟩]
        [⟨"m2", "r1", "u2", "yo", 6, false⟩]
      = [⟨"m1", "r1", "u1", "hi", 5, false⟩, ⟨"m2", "r1", "u2", "yo", 6, false⟩]
    ∧ ((observeChat [⟨"m1", "r1", "u1", "hi", 5, false⟩]
        [⟨"m2", "r1", "u2", "yo", 6, false⟩]).map (fun m => m.id)).Nodup :=
  chat_seam_append_nodup [⟨"m1", "r1", "u1", "hi", 5, false⟩]
    [⟨"m2", "r1", "u2", "yo", 6, false⟩] (by decide) (by decide) (by decide)
